import Mathlib

/-!
# Verification of the LTI `OutcomeRequest` message codec

A shallow embedding of `src/lti/outcome_request.py`: the `OutcomeRequest`
class that builds, serializes (`generate_request_xml`) and parses
(`process_xml`) IMS LTI v1.1 Basic Outcomes envelopes, plus the posting
entry points (`post_replace_result`, `post_outcome_request`) and the
constructor's attribute whitelist.

Modelling conventions:

* XML documents are modelled as trees (`Xml`) of tag, attributes, optional
  text content and child list.  The python code serializes with
  `etree.tostring` and re-parses with `objectify.fromstring`; for trees the
  code itself generates (no pretty printing, all text free of characters
  that XML cannot carry) that serialize/parse pair is the identity on the
  tree, and the namespace declared by the root `xmlns` attribute applies
  uniformly to every element, so tags are modelled as plain strings.
* `lxml.objectify` attribute access (`root.imsx_POXBody`) returns the first
  child with the given tag and raises `AttributeError` when there is none:
  modelled by `Xml.findChild` returning `Option Xml`.  `element.find(path,
  nsmap)` resolves each unprefixed step in the default namespace and
  returns the first match or `None`: modelled by `Xml.findPath`.
* `str(element)` on an objectify element returns its text content, or the
  empty string when it has none: `Xml.strOf`.
* An objectify leaf element in boolean context follows the truth value of
  its text (`StringElement.__bool__`): `Xml.truthy`.  A found structural
  element wrapped in `len(...)` counts at least itself, hence is truthy.
* Python attribute values that the class stores are either strings or
  (after parsing) lxml element objects: `PyVal`.  `result_data` is a dict
  with string keys, modelled as an association list; python dicts have
  distinct keys, which theorems assume where it matters.
* Exceptions are modelled with `Option`/`Except`: `none`/`.error` means the
  python call raises.  Inside `process_xml` the bare `except: pass` blocks
  are modelled by early exit that keeps the mutations already performed,
  exactly as CPython leaves attributes assigned before the raise.
-/

namespace LTI

/-- An XML element: tag, attributes, text content, children.  Namespaces are
uniform across the documents this codec touches and are therefore dropped
(see the module comment). -/
inductive Xml : Type where
  | elem (tag : String) (attrs : List (String × String)) (text : Option String)
      (children : List Xml)
deriving Repr

def Xml.tag : Xml → String
  | .elem t _ _ _ => t

def Xml.attrs : Xml → List (String × String)
  | .elem _ a _ _ => a

def Xml.text : Xml → Option String
  | .elem _ _ s _ => s

def Xml.children : Xml → List Xml
  | .elem _ _ _ c => c

/-- First child with the given tag, as objectify attribute access or a
single-step `find` returns it; `none` models `AttributeError` / `None`. -/
def Xml.findChild (x : Xml) (t : String) : Option Xml :=
  x.children.find? fun c => c.tag == t

/-- `element.find("a/b/c", nsmap)`: follow the path one step at a time,
first matching child each time. -/
def Xml.findPath : Xml → List String → Option Xml
  | x, [] => some x
  | x, t :: ts =>
    match x.findChild t with
    | some c => c.findPath ts
    | none => none

/-- `str(element)` under objectify: the text content, or `""`. -/
def Xml.strOf (x : Xml) : String :=
  x.text.getD ""

/-- Truth value of an objectify data element: that of its text content. -/
def Xml.truthy (x : Xml) : Bool :=
  !(x.text.getD "" == "")

mutual

/-- Whether some descendant (the element itself included) carries this tag. -/
def Xml.hasDescTag : Xml → String → Bool
  | .elem tg _ _ cs, t => tg == t || hasDescTagList cs t

/-- `Xml.hasDescTag` mapped over a child list. -/
def hasDescTagList : List Xml → String → Bool
  | [], _ => false
  | c :: cs, t => c.hasDescTag t || hasDescTagList cs t

end

mutual

/-- Whether some descendant carries this tag with exactly this text. -/
def Xml.hasDescText : Xml → String → String → Bool
  | .elem tg _ s cs, t, v => (tg == t && s == some v) || hasDescTextList cs t v

/-- `Xml.hasDescText` mapped over a child list. -/
def hasDescTextList : List Xml → String → String → Bool
  | [], _, _ => false
  | c :: cs, t, v => c.hasDescText t v || hasDescTextList cs t v

end

/-- A python value held in one of the message's attributes: a string, or an
lxml element object (as `process_xml` stores into `lis_result_sourcedid`
and `result_data`). -/
inductive PyVal : Type where
  | str (s : String)
  | node (x : Xml)

/-- `str(value)`: identity on strings, text content on elements. -/
def PyVal.toPyStr : PyVal → String
  | .str s => s
  | .node x => x.strOf

/-- Assigning a value to an lxml `.text` slot: `None` and strings are
accepted, an element object raises `TypeError`. -/
inductive GenError : Type where
  | nameError
  | typeError
deriving DecidableEq, Repr

def setTextVal : Option PyVal → Except GenError (Option String)
  | none => .ok none
  | some (.str s) => .ok (some s)
  | some (.node _) => .error .typeError

/-- The wire operation constants of the source file. -/
def REPLACE_REQUEST : String := "replaceResult"

def DELETE_REQUEST : String := "deleteResult"

def READ_REQUEST : String := "readResult"

def LTI_NS : String := "http://www.imsglobal.org/services/ltiv1p1/xsd/imsoms_v1p0"

/-- The constructor whitelist `VALID_ATTRIBUTES`, in source order. -/
def VALID_ATTRIBUTES : List String :=
  ["operation", "score", "result_data", "outcome_response",
   "message_identifier", "lis_outcome_service_url", "lis_result_sourcedid",
   "consumer_key", "consumer_secret", "post_request",
   "needs_additional_review"]

/-- The `OutcomeRequest` object's named attributes, as the constructor
initializes them (all `None`).  `lis_result_sourcedid` and the values of
`result_data` hold `PyVal` because `process_xml` stores lxml elements
there, while programmatic use stores strings. -/
structure OutcomeRequest : Type where
  operation : Option String := none
  score : Option String := none
  result_data : Option (List (String × PyVal)) := none
  message_identifier : Option String := none
  lis_outcome_service_url : Option String := none
  lis_result_sourcedid : Option PyVal := none
  consumer_key : Option String := none
  consumer_secret : Option String := none
  needs_additional_review : Option Bool := none

/-- A freshly constructed `OutcomeRequest()` — every attribute `None`. -/
def freshOutcomeRequest : OutcomeRequest := {}

/-- Truthiness of the `result_data` attribute: a dict is truthy when
non-empty; `None` is falsy. -/
def rdTruthy : Option (List (String × PyVal)) → Bool
  | some rd => !rd.isEmpty
  | none => false

/-- Python `key in dict`. -/
def hasKey (rd : List (String × PyVal)) (k : String) : Bool :=
  (rd.find? fun p => p.1 == k).isSome

/-- Python `dict[key]` as an option. -/
def rdLookup (rd : List (String × PyVal)) (k : String) : Option PyVal :=
  (rd.find? fun p => p.1 == k).map fun p => p.2

/-- Truthiness of the `needs_additional_review` attribute (`None`, `False`
or `True`). -/
def truthyOB : Option Bool → Bool
  | some b => b
  | none => false

/-- The `resultData` child chosen by `generate_request_xml` lines 244-252:
`text`, then `url`, then `ltiLaunchUrl`; no recognized key leaves the
`resultData` element empty; an element-valued entry raises `TypeError` at
the `.text` assignment. -/
def resultDataChild (rd : List (String × PyVal)) : Except GenError (Option Xml) :=
  match rdLookup rd "text" with
  | some (.str s) => .ok (some (.elem "text" [] (some s) []))
  | some (.node _) => .error .typeError
  | none =>
    match rdLookup rd "url" with
    | some (.str s) => .ok (some (.elem "url" [] (some s) []))
    | some (.node _) => .error .typeError
    | none =>
      match rdLookup rd "ltiLaunchUrl" with
      | some (.str s) => .ok (some (.elem "ltiLaunchUrl" [] (some s) []))
      | some (.node _) => .error .typeError
      | none => .ok none

/-- `generate_request_xml` (source lines 212-260), statement by statement.
The `result` local is bound only inside the `if self.score is not None`
block (line 235); the `resultData` block (lines 242-252) reads it
unconditionally, so a truthy `result_data` with an unset `score` raises
`NameError` — modelled as `.error .nameError`. -/
def OutcomeRequest.generate_request_xml (m : OutcomeRequest) :
    Except GenError Xml :=
  match setTextVal m.lis_result_sourcedid with
  | .error e => .error e
  | .ok sidText =>
    let header : Xml :=
      .elem "imsx_POXHeader" [] none
        [.elem "imsx_POXRequestHeaderInfo" [] none
          [.elem "imsx_version" [] (some "V1.0") [],
           .elem "imsx_messageIdentifier" [] m.message_identifier []]]
    let guid : Xml := .elem "sourcedGUID" [] none
      [.elem "sourcedId" [] sidText []]
    let opTag : String :=
      (match m.operation with
       | some o => o
       | none => "None") ++ "Request"
    let finish : List Xml → Xml := fun recordChildren =>
      let record : Xml := .elem "resultRecord" [] none recordChildren
      let reqChildren : List Xml :=
        if truthyOB m.needs_additional_review then
          [record, .elem "submissionDetails" [] none
            [.elem "needsAdditionalReview" [] none []]]
        else [record]
      .elem "imsx_POXEnvelopeRequest" [("xmlns", LTI_NS)] none
        [header, .elem "imsx_POXBody" [] none
          [.elem opTag [] none reqChildren]]
    match m.score with
    | none =>
      if rdTruthy m.result_data then .error .nameError
      else .ok (finish [guid])
    | some sc =>
      let scoreChildren : List Xml :=
        [.elem "resultScore" [] none
          [.elem "language" [] (some "en") [],
           .elem "textString" [] (some sc) []]]
      if rdTruthy m.result_data then
        match resultDataChild (m.result_data.getD []) with
        | .error e => .error e
        | .ok childOpt =>
          let rdElem : Xml := .elem "resultData" [] none
            (match childOpt with
             | some c => [c]
             | none => [])
          .ok (finish [guid, .elem "result" [] none (scoreChildren ++ [rdElem])])
      else .ok (finish [guid, .elem "result" [] none scoreChildren])

/-- The header/messageIdentifier access of `process_xml` lines 163-165:
`root.imsx_POXHeader.imsx_POXRequestHeaderInfo.imsx_messageIdentifier`,
outside any `try`, so absence raises. -/
def headerMid (root : Xml) : Option Xml :=
  root.findPath ["imsx_POXHeader", "imsx_POXRequestHeaderInfo",
    "imsx_messageIdentifier"]

/-- `resultData.find(tag, nsmap)` used as a condition: the walrus binding is
taken only when the element is found and truthy in the objectify sense. -/
def truthyFind (x : Xml) (t : String) : Option Xml :=
  match x.findChild t with
  | some c => if c.truthy then some c else none
  | none => none

/-- The first `try` block of `process_xml` (lines 166-185).  Each failing
lookup raises inside the block; the bare `except: pass` keeps all
assignments made before the raise.  Note faithfully kept quirks: the
sourcedId element object itself is stored; `len(None)` raises `TypeError`
when no `resultData` element exists, skipping the `needs_additional_review`
assignment of line 183; the `text` and `url` branches bind the outer
`result` element (the `replaceResultRequest` node) instead of the matched
child `r`. -/
def replaceBranch (root : Xml) (m : OutcomeRequest) : OutcomeRequest :=
  match root.findPath ["imsx_POXBody", "replaceResultRequest"] with
  | none => m
  | some result =>
    let m1 := { m with operation := some REPLACE_REQUEST }
    match result.findPath ["resultRecord", "sourcedGUID", "sourcedId"] with
    | none => m1
    | some sid =>
      let m2 := { m1 with lis_result_sourcedid := some (.node sid) }
      match result.findPath ["resultRecord", "result", "resultScore", "textString"] with
      | none => m2
      | some ts =>
        let m3 := { m2 with score := some ts.strOf }
        match result.findPath ["resultRecord", "result", "resultData"] with
        | none => m3
        | some resultData =>
          let m4 :=
            match truthyFind resultData "text" with
            | some _ => { m3 with result_data := some [("text", .node result)] }
            | none =>
              match truthyFind resultData "url" with
              | some _ => { m3 with result_data := some [("url", .node result)] }
              | none =>
                match truthyFind resultData "ltiLaunchUrl" with
                | some r => { m3 with result_data := some [("ltiLaunchUrl", .node r)] }
                | none => m3
          let nar : Bool :=
            (result.findPath ["submissionDetails", "needsAdditionalReview"]).isSome
          { m4 with needs_additional_review := some nar }

/-- The second `try` block of `process_xml` (lines 187-194). -/
def deleteBranch (root : Xml) (m : OutcomeRequest) : OutcomeRequest :=
  match root.findPath ["imsx_POXBody", "deleteResultRequest"] with
  | none => m
  | some result =>
    let m1 := { m with operation := some DELETE_REQUEST }
    match result.findPath ["resultRecord", "sourcedGUID", "sourcedId"] with
    | none => m1
    | some sid => { m1 with lis_result_sourcedid := some (.node sid) }

/-- The third `try` block of `process_xml` (lines 196-203). -/
def readBranch (root : Xml) (m : OutcomeRequest) : OutcomeRequest :=
  match root.findPath ["imsx_POXBody", "readResultRequest"] with
  | none => m
  | some result =>
    let m1 := { m with operation := some READ_REQUEST }
    match result.findPath ["resultRecord", "sourcedGUID", "sourcedId"] with
    | none => m1
    | some sid => { m1 with lis_result_sourcedid := some (.node sid) }

/-- `process_xml` (lines 158-203) on an already parsed document tree.
`none` models an uncaught exception: the header access of lines 163-165 is
the only statement outside the three `try` blocks. -/
def OutcomeRequest.process_xml (m0 : OutcomeRequest) (root : Xml) :
    Option OutcomeRequest :=
  match headerMid root with
  | none => none
  | some hi =>
    let m1 := { m0 with message_identifier := some hi.strOf }
    some (readBranch root (deleteBranch root (replaceBranch root m1)))

/-- `has_required_attributes` (lines 205-210). -/
def OutcomeRequest.has_required_attributes (m : OutcomeRequest) : Bool :=
  m.consumer_key.isSome && m.consumer_secret.isSome &&
  m.lis_outcome_service_url.isSome && m.lis_result_sourcedid.isSome &&
  m.operation.isSome

/-- Observable outcome of `post_outcome_request` / `post_replace_result`:
which exception was raised, or that the signed POST was attempted and with
which body.  `requests.post` evaluates its `data` argument first, so an
exception in `generate_request_xml` also means no network call. -/
inductive PostOutcome : Type where
  | invalidResultData
  | missingAttributes
  | generateRaised (e : GenError)
  | posted (body : Xml)

/-- `post_outcome_request` (lines 139-156): the required-attribute gate
raises `InvalidLTIConfigError` before any I/O; otherwise the request body
is generated and POSTed. -/
def OutcomeRequest.post_outcome_request (m : OutcomeRequest) : PostOutcome :=
  if m.has_required_attributes then
    match m.generate_request_xml with
    | .error e => .generateRaised e
    | .ok x => .posted x
  else .missingAttributes

/-- The four assignments of `post_replace_result` lines 86-89: operation,
score, result_data and the review flag, performed before any validation. -/
def replacedState (m0 : OutcomeRequest) (score : String)
    (result_data : Option (List (String × PyVal))) (needs : Bool) :
    OutcomeRequest :=
  { m0 with operation := some REPLACE_REQUEST, score := some score,
            result_data := result_data,
            needs_additional_review := some needs }

/-- `post_replace_result` (lines 73-102): assigns operation, score,
result_data and needs_additional_review first, then validates result_data,
then delegates.  Returns the object state after the call together with the
outcome. -/
def OutcomeRequest.post_replace_result (m0 : OutcomeRequest) (score : String)
    (result_data : Option (List (String × PyVal))) (needs : Bool) :
    OutcomeRequest × PostOutcome :=
  let m := replacedState m0 score result_data needs
  match result_data with
  | some rd =>
    if rd.length > 1 then (m, .invalidResultData)
    else if !hasKey rd "text" && !hasKey rd "url" && !hasKey rd "ltiLaunchUrl" then
      (m, .invalidResultData)
    else (m, m.post_outcome_request)
  | none => (m, m.post_outcome_request)

/-- Encode with `generate_request_xml`, then decode the produced document
with `process_xml` on a freshly constructed message; `none` when either
side raises. -/
def roundTrip (m : OutcomeRequest) : Option OutcomeRequest :=
  match m.generate_request_xml with
  | .error _ => none
  | .ok x => freshOutcomeRequest.process_xml x

/-- The constructor's option-storing loop (lines 42-54) over a dynamic
attribute store: every valid attribute starts as `None`; each option is
stored if whitelisted, otherwise `InvalidLTIConfigError` is raised with
the offending key's message. -/
def storeOpts : List (String × PyVal) → (String → Option PyVal) →
    Except String (String → Option PyVal)
  | [], st => .ok st
  | (k, v) :: rest, st =>
    if k ∈ VALID_ATTRIBUTES then
      storeOpts rest (fun a => if a = k then some v else st a)
    else .error ("Invalid outcome request option: " ++ k)

/-- `OutcomeRequest.__init__` on its `opts` mapping. -/
def initOutcome (opts : List (String × PyVal)) :
    Except String (String → Option PyVal) :=
  storeOpts opts (fun _ => none)

/-- The `result_data` validation condition of `post_replace_result` lines
90-98: present, and with more than one entry or with none of the three
recognized keys. -/
def rdInvalid : Option (List (String × PyVal)) → Bool
  | some rd =>
    decide (rd.length > 1) ||
      (!hasKey rd "text" && !hasKey rd "url" && !hasKey rd "ltiLaunchUrl")
  | none => false

/-- A fully populated programmatic ReplaceResult message used as the base
of concrete round-trip scenarios. -/
def rtBase : OutcomeRequest :=
  { operation := some REPLACE_REQUEST, message_identifier := some "mid",
    lis_result_sourcedid := some (PyVal.str "sid"), score := some "1" }

/-- The decoded `result_data`, with each stored python value rendered by
`str`, after an encode/decode round trip. -/
def rdStringsRT (m : OutcomeRequest) : Option (Option (List (String × String))) :=
  (roundTrip m).map fun x =>
    x.result_data.map fun l => l.map fun p => (p.1, p.2.toPyStr)

/-- The decoded `needs_additional_review` attribute after an encode/decode
round trip (`none` when decoding left it untouched). -/
def narRT (m : OutcomeRequest) : Option (Option Bool) :=
  (roundTrip m).map fun x => x.needs_additional_review

/-- Whether the XML generated from `rtBase` with the given review flag
contains a `needsAdditionalReview` element. -/
def emitsNAR (nb : Option Bool) : Bool :=
  match ({ rtBase with needs_additional_review := nb } : OutcomeRequest).generate_request_xml with
  | .ok x => x.hasDescTag "needsAdditionalReview"
  | .error _ => false

/-- An inbound replaceResult document whose `resultData` carries a `url`
child before a `text` child in document order, to observe the decoder's
fixed text/url/ltiLaunchUrl probe order. -/
def orderDoc : Xml :=
  .elem "imsx_POXEnvelopeRequest" [] none
    [.elem "imsx_POXHeader" [] none
      [.elem "imsx_POXRequestHeaderInfo" [] none
        [.elem "imsx_messageIdentifier" [] (some "m") []]],
     .elem "imsx_POXBody" [] none
       [.elem "replaceResultRequest" [] none
         [.elem "resultRecord" [] none
           [.elem "sourcedGUID" [] none [.elem "sourcedId" [] (some "s") []],
            .elem "result" [] none
              [.elem "resultScore" [] none
                [.elem "language" [] (some "en") [],
                 .elem "textString" [] (some "1") []],
               .elem "resultData" [] none
                 [.elem "url" [] (some "u") [],
                  .elem "text" [] (some "t") []]]]]]]

/-- A well-formed envelope carrying only a header with a message
identifier: no `imsx_POXBody` operation elements at all. -/
def headerOnlyDoc : Xml :=
  .elem "imsx_POXEnvelopeRequest" [] none
    [.elem "imsx_POXHeader" [] none
      [.elem "imsx_POXRequestHeaderInfo" [] none
        [.elem "imsx_messageIdentifier" [] (some "42") []]],
     .elem "imsx_POXBody" [] none []]

/-- A well-formed envelope with a body but no header at all. -/
def headerlessDoc : Xml :=
  .elem "imsx_POXEnvelopeRequest" [] none
    [.elem "imsx_POXBody" [] none []]

/-- Helper for the constructor proofs: a run of `storeOpts` over options
whose keys are all whitelisted and mutually distinct succeeds, stores every
given value, and leaves other attributes untouched. -/
theorem storeOpts_valid (opts : List (String × PyVal)) :
    ∀ st : String → Option PyVal,
      (∀ p ∈ opts, p.1 ∈ VALID_ATTRIBUTES) → (opts.map Prod.fst).Nodup →
      ∃ st', storeOpts opts st = .ok st' ∧ (∀ p ∈ opts, st' p.1 = some p.2) ∧
        ∀ k, k ∉ opts.map Prod.fst → st' k = st k := by
  induction opts with
  | nil =>
    intro st _ _
    exact ⟨st, rfl, by simp, fun _ _ => rfl⟩
  | cons hd tl ih =>
    intro st hvalid hnd
    have hhd : hd.1 ∈ VALID_ATTRIBUTES := hvalid hd (List.mem_cons_self hd tl)
    have hnd' : (tl.map Prod.fst).Nodup := (List.nodup_cons.mp hnd).2
    have hmem : hd.1 ∉ tl.map Prod.fst := (List.nodup_cons.mp hnd).1
    obtain ⟨st', hrun, hstore, hkeep⟩ :=
      ih (fun a => if a = hd.1 then some hd.2 else st a)
        (fun p hp => hvalid p (List.mem_cons_of_mem hd hp)) hnd'
    refine ⟨st', ?_, ?_, ?_⟩
    · show storeOpts (hd :: tl) st = .ok st'
      simp only [storeOpts, if_pos hhd]
      exact hrun
    · intro p hp
      rcases List.mem_cons.mp hp with hph | hpt
      · subst hph
        have := hkeep p.1 hmem
        simp only [if_pos rfl] at this
        exact this
      · exact hstore p hpt
    · intro k hk
      have hk1 : k ∉ tl.map Prod.fst := fun h => hk (by simp [h])
      have hk2 : k ≠ hd.1 := fun h => hk (by simp [h])
      have := hkeep k hk1
      simpa [if_neg hk2] using this

/-- Helper for the constructor proofs: a run of `storeOpts` over options
containing a non-whitelisted key raises `InvalidLTIConfigError`. -/
theorem storeOpts_invalid (opts : List (String × PyVal)) :
    ∀ st : String → Option PyVal, (∃ p ∈ opts, p.1 ∉ VALID_ATTRIBUTES) →
      ∃ msg, storeOpts opts st = .error msg := by
  induction opts with
  | nil =>
    intro st h
    obtain ⟨p, hp, _⟩ := h
    exact absurd hp (List.not_mem_nil p)
  | cons hd tl ih =>
    intro st h
    by_cases hhd : hd.1 ∈ VALID_ATTRIBUTES
    · obtain ⟨p, hp, hpv⟩ := h
      rcases List.mem_cons.mp hp with hph | hpt
      · exact absurd hhd (hph ▸ hpv)
      · obtain ⟨msg, hmsg⟩ := ih _ ⟨p, hpt, hpv⟩
        exact ⟨msg, by simp only [storeOpts, if_pos hhd]; exact hmsg⟩
    · exact ⟨"Invalid outcome request option: " ++ hd.1,
        by simp only [storeOpts, if_neg hhd]⟩

/-- Helper for the posting proofs: `post_outcome_request` never raises the
`result_data` validation error — that error belongs to
`post_replace_result` alone. -/
theorem post_outcome_request_ne_invalid (m : OutcomeRequest) :
    m.post_outcome_request ≠ PostOutcome.invalidResultData := by
  unfold OutcomeRequest.post_outcome_request
  split
  · split <;> intro h <;> cases h
  · intro h; cases h

/-- C1: for every ReplaceResult message with operation, messageIdentifier,
resultSourcedId and a score set, serializing with `generate_request_xml`
and parsing the produced document with `process_xml` on a fresh message
yields the same score, the same resultSourcedId (as a string value), and
operation `replaceResult`. -/
theorem c1_replace_roundtrip (mid sid sc : String) :
    (roundTrip { operation := some REPLACE_REQUEST,
                 message_identifier := some mid,
                 lis_result_sourcedid := some (PyVal.str sid),
                 score := some sc }).map
        (fun m => (m.operation, m.score, m.lis_result_sourcedid.map PyVal.toPyStr))
      = some (some REPLACE_REQUEST, some sc, some sid) := rfl

/-- C2 counterexample: encoding a ReplaceResult message whose `result_data`
is `{"text": "a"}` and decoding the produced XML does not preserve the
value — the decoder's `text` branch stores the outer `replaceResultRequest`
element, whose string content is empty, so the decoded dict is
`{"text": ""}`, not `{"text": "a"}`. -/
theorem c2_text_value_lost :
    rdStringsRT { rtBase with result_data := some [("text", PyVal.str "a")] }
        = some (some [("text", "")]) ∧
      ("" : String) ≠ "a" := ⟨rfl, by decide⟩

/-- C2 amended: encode/decode round trips with exactly one `result_data`
key and a non-empty string value preserve the key, and the decoder probes
`text`, `url`, `ltiLaunchUrl` in that fixed order with the first truthy
match winning (witness: a document carrying `url` before `text` decodes to
key `text`); but the string value survives only for `ltiLaunchUrl` — the
`text` and `url` branches bind the outer `replaceResultRequest` element,
whose string content is empty. -/
theorem c2_roundtrip_amended (c : Char) (cs : List Char) :
    rdStringsRT { rtBase with
        result_data := some [("text", PyVal.str (String.mk (c :: cs)))] }
      = some (some [("text", "")]) ∧
    rdStringsRT { rtBase with
        result_data := some [("url", PyVal.str (String.mk (c :: cs)))] }
      = some (some [("url", "")]) ∧
    rdStringsRT { rtBase with
        result_data := some [("ltiLaunchUrl", PyVal.str (String.mk (c :: cs)))] }
      = some (some [("ltiLaunchUrl", String.mk (c :: cs))]) ∧
    (freshOutcomeRequest.process_xml orderDoc).map
        (fun m => m.result_data.map fun l => l.map Prod.fst)
      = some (some ["text"]) := ⟨rfl, rfl, rfl, rfl⟩

/-- C3 counterexample: a ReplaceResult message with
`needs_additional_review = true`, a score, and no `result_data` does not
round-trip the flag — decoding leaves the attribute `None`, because the
absent `resultData` element makes `len(None)` raise before line 183 runs. -/
theorem c3_flag_not_roundtripped :
    narRT { rtBase with needs_additional_review := some true }
      ≠ some (some true) := by
  intro h
  exact Option.noConfusion (Option.some.inj h)

/-- C3 amended: `generate_request_xml` emits the empty
`submissionDetails/needsAdditionalReview` element exactly when the flag is
truthy, and never for false or the default `None`.  Decoding, however,
reaches the flag assignment only when the document also carries a
`resultRecord/result/resultData` element: with both a score and a
`result_data` entry the flag round-trips to `Some b` for either value of
`b`, while with no `result_data` the decoder raises internally first and
leaves the flag unset (`None`) even when the element is present. -/
theorem c3_review_flag_amended (nb : Option Bool) (b : Bool) :
    emitsNAR nb = truthyOB nb ∧
    narRT { rtBase with
        result_data := some [("ltiLaunchUrl", PyVal.str "u")],
        needs_additional_review := some b }
      = some (some b) ∧
    narRT { rtBase with needs_additional_review := some true }
      = some none := by
  refine ⟨?_, ?_, rfl⟩
  · cases nb with
    | none => rfl
    | some b' => cases b' <;> rfl
  · cases b <;> rfl

/-- C4 counterexample: `process_xml` raises on a well-formed document with
none of the three operation elements when the
`imsx_POXHeader/imsx_POXRequestHeaderInfo/imsx_messageIdentifier` path is
absent — the header access of lines 163-165 sits outside every `try`
block, so the claim's "messageIdentifier, when present" tolerance does not
hold. -/
theorem c4_headerless_raises :
    freshOutcomeRequest.process_xml headerlessDoc = none := rfl

/-- C4 amended: on a well-formed document whose header message-identifier
path is present, the absence of all of `replaceResultRequest`,
`deleteResultRequest` and `readResultRequest` is not an error:
`process_xml` returns with `operation` (and every other body field) left
unset and only `message_identifier` populated; when the header path is
absent, `process_xml` raises. -/
theorem c4_no_operation_amended (root hi : Xml)
    (hh : headerMid root = some hi)
    (hrep : root.findPath ["imsx_POXBody", "replaceResultRequest"] = none)
    (hdel : root.findPath ["imsx_POXBody", "deleteResultRequest"] = none)
    (hread : root.findPath ["imsx_POXBody", "readResultRequest"] = none) :
    freshOutcomeRequest.process_xml root
      = some { freshOutcomeRequest with message_identifier := some hi.strOf } := by
  simp only [OutcomeRequest.process_xml, hh, replaceBranch, hrep, deleteBranch,
    hdel, readBranch, hread]

/-- C4 witness: the amended statement applied to a concrete envelope that
has a header with message identifier "42" and an empty body. -/
theorem c4_no_operation_amended_witness :
    freshOutcomeRequest.process_xml headerOnlyDoc
      = some { freshOutcomeRequest with message_identifier := some "42" } :=
  c4_no_operation_amended headerOnlyDoc
    (Xml.elem "imsx_messageIdentifier" [] (some "42") []) rfl rfl rfl rfl

/-- C5 counterexample: `post_replace_result` with the zero-key dictionary
`{}` raises `InvalidLTIConfigError`, while the claim says zero keys raise
no configuration error. -/
theorem c5_empty_dict_raises :
    (freshOutcomeRequest.post_replace_result "0.9" (some []) false).2
      = PostOutcome.invalidResultData := rfl

/-- C5 amended: `post_replace_result` raises the `result_data`
configuration error exactly when `result_data` is a present dictionary
that has more than one entry or has none of the keys `text`, `url`,
`ltiLaunchUrl` — so the empty dictionary raises too, while `None` never
does; on that error no XML is generated and no POST is attempted (the
outcome is the raise itself, not a `posted` body), and otherwise the call
proceeds to `post_outcome_request`. -/
theorem c5_replace_validation_amended (m0 : OutcomeRequest) (s : String)
    (rd : Option (List (String × PyVal))) (nb : Bool) :
    (m0.post_replace_result s rd nb).2 = PostOutcome.invalidResultData
      ↔ rdInvalid rd = true := by
  cases rd with
  | none =>
    simp only [OutcomeRequest.post_replace_result, rdInvalid]
    exact ⟨fun h => absurd h (post_outcome_request_ne_invalid _),
      fun h => Bool.noConfusion h⟩
  | some rd =>
    simp only [OutcomeRequest.post_replace_result, rdInvalid]
    by_cases hlen : rd.length > 1
    · simp [hlen]
    · cases hkeys :
          (!hasKey rd "text" && !hasKey rd "url" && !hasKey rd "ltiLaunchUrl") with
      | true => simp [hlen, hkeys]
      | false => simp [hlen, hkeys, post_outcome_request_ne_invalid]

/-- C5 witness: the amended equivalence applied at the empty dictionary on
a fresh message, giving the raise concretely. -/
theorem c5_replace_validation_amended_witness :
    (freshOutcomeRequest.post_replace_result "0.9" (some [("a", PyVal.str "b")]) false).2
      = PostOutcome.invalidResultData :=
  (c5_replace_validation_amended freshOutcomeRequest "0.9"
    (some [("a", PyVal.str "b")]) false).mpr (by decide)

/-- C6: `has_required_attributes` is true exactly when `consumer_key`,
`consumer_secret`, `lis_outcome_service_url`, `lis_result_sourcedid` and
`operation` are all set, and whenever it is false `post_outcome_request`
raises the configuration error without generating XML or attempting the
network POST. -/
theorem c6_required_attributes_gate (m : OutcomeRequest) :
    (m.has_required_attributes = true ↔
      (m.consumer_key.isSome = true ∧ m.consumer_secret.isSome = true ∧
       m.lis_outcome_service_url.isSome = true ∧
       m.lis_result_sourcedid.isSome = true ∧ m.operation.isSome = true)) ∧
    (m.has_required_attributes = false →
      m.post_outcome_request = PostOutcome.missingAttributes) := by
  constructor
  · simp [OutcomeRequest.has_required_attributes, and_assoc]
  · intro h
    simp [OutcomeRequest.post_outcome_request, h]

/-- C6 witness: a fresh message has no required attribute set, and its
`post_outcome_request` raises before any I/O. -/
theorem c6_required_attributes_gate_witness :
    freshOutcomeRequest.post_outcome_request = PostOutcome.missingAttributes :=
  (c6_required_attributes_gate freshOutcomeRequest).2 rfl

/-- C7: the XML generated for a ReplaceResult message with score "0.92",
sourcedId "student:42" and no `result_data` has root
`imsx_POXEnvelopeRequest` carrying the LTI v1p1 namespace declaration,
contains a `replaceResultRequest` element, a `sourcedId` with text
"student:42", a `textString` with text "0.92" and an `imsx_version` with
text "V1.0", and contains no `resultData` element. -/
theorem c7_scenario_xml :
    (OutcomeRequest.generate_request_xml
        { operation := some REPLACE_REQUEST, score := some "0.92",
          lis_result_sourcedid := some (PyVal.str "student:42") }).map
        (fun x => (x.tag, x.attrs, x.hasDescTag "replaceResultRequest",
          x.hasDescText "sourcedId" "student:42",
          x.hasDescText "textString" "0.92",
          x.hasDescTag "resultData",
          x.hasDescText "imsx_version" "V1.0"))
      = .ok ("imsx_POXEnvelopeRequest", [("xmlns", LTI_NS)],
          true, true, true, false, true) := rfl

/-- C8: constructing an `OutcomeRequest` whose options all bear whitelisted
names succeeds and stores each given value on the corresponding attribute,
while any option named outside `VALID_ATTRIBUTES` makes the constructor
raise `InvalidLTIConfigError`. -/
theorem c8_constructor_whitelist (opts : List (String × PyVal))
    (hnd : (opts.map Prod.fst).Nodup) :
    ((∀ p ∈ opts, p.1 ∈ VALID_ATTRIBUTES) →
      ∃ st, initOutcome opts = .ok st ∧ ∀ p ∈ opts, st p.1 = some p.2) ∧
    ((∃ p ∈ opts, p.1 ∉ VALID_ATTRIBUTES) →
      ∃ msg, initOutcome opts = .error msg) := by
  constructor
  · intro hvalid
    obtain ⟨st, hrun, hstore, _⟩ := storeOpts_valid opts (fun _ => none) hvalid hnd
    exact ⟨st, hrun, hstore⟩
  · intro hbad
    exact storeOpts_invalid opts _ hbad

/-- C8 witness: constructing with the single recognized option `score`
succeeds and stores the value; constructing with the unrecognized name
`bogus` raises. -/
theorem c8_constructor_whitelist_witness :
    (∃ st, initOutcome [("score", PyVal.str "0.5")] = .ok st ∧
      st "score" = some (PyVal.str "0.5")) ∧
    ∃ msg, initOutcome [("bogus", PyVal.str "x")] = .error msg := by
  constructor
  · obtain ⟨st, hrun, hstore⟩ :=
      (c8_constructor_whitelist [("score", PyVal.str "0.5")] (by simp)).1
        (by intro p hp; rw [List.mem_singleton] at hp; subst hp; decide)
    exact ⟨st, hrun, hstore _ (List.mem_singleton.mpr rfl)⟩
  · exact (c8_constructor_whitelist [("bogus", PyVal.str "x")] (by simp)).2
      ⟨("bogus", PyVal.str "x"), List.mem_singleton.mpr rfl, by decide⟩

/-- C9: on a message whose `result_data` is a non-empty dictionary but
whose score is unset, `generate_request_xml` raises `NameError` — the
`resultData` block reads the `result` local that only the score branch
binds — instead of producing XML (assuming the sourced id is a string or
unset, as on every programmatically built message). -/
theorem c9_name_error (m : OutcomeRequest) (rd : List (String × PyVal))
    (hscore : m.score = none) (hrd : m.result_data = some rd) (hne : rd ≠ [])
    (hsid : ∀ x, m.lis_result_sourcedid ≠ some (PyVal.node x)) :
    m.generate_request_xml = .error GenError.nameError := by
  have hsid' : ∃ t, setTextVal m.lis_result_sourcedid = .ok t := by
    match h : m.lis_result_sourcedid with
    | none => exact ⟨none, rfl⟩
    | some (.str s) => exact ⟨some s, rfl⟩
    | some (.node x) => exact absurd h (hsid x)
  obtain ⟨t, ht⟩ := hsid'
  have htruthy : rdTruthy m.result_data = true := by
    rw [hrd]
    cases rd with
    | nil => exact absurd rfl hne
    | cons a l => rfl
  unfold OutcomeRequest.generate_request_xml
  rw [ht, hscore, htruthy]
  rfl

/-- C9 witness: a fresh message given only `result_data = {"text": "a"}`
raises `NameError` from `generate_request_xml`. -/
theorem c9_name_error_witness :
    (OutcomeRequest.generate_request_xml
        { result_data := some [("text", PyVal.str "a")] })
      = .error GenError.nameError :=
  c9_name_error { result_data := some [("text", PyVal.str "a")] }
    [("text", PyVal.str "a")] rfl rfl
    (List.cons_ne_nil _ _) (fun _ h => Option.noConfusion h)

/-- C10: `post_replace_result` mutates before it validates — whenever the
`result_data` validation raises, the returned object state already holds
`operation = replaceResult`, the new score, the invalid `result_data` and
the new review flag. -/
theorem c10_mutation_before_validation (m0 : OutcomeRequest) (s : String)
    (rd : List (String × PyVal)) (nb : Bool)
    (h : rdInvalid (some rd) = true) :
    m0.post_replace_result s (some rd) nb
      = (replacedState m0 s (some rd) nb, PostOutcome.invalidResultData) := by
  simp only [rdInvalid, Bool.or_eq_true, decide_eq_true_eq] at h
  simp only [OutcomeRequest.post_replace_result]
  rcases h with hlen | hkeys
  · rw [if_pos hlen]
  · by_cases hlen : rd.length > 1
    · rw [if_pos hlen]
    · rw [if_neg hlen, if_pos hkeys]

/-- C10 witness: the state left behind by the two-key failure scenario
`result_data = {"text": "a", "url": "b"}` on a fresh message. -/
theorem c10_mutation_before_validation_witness :
    freshOutcomeRequest.post_replace_result "0.9"
        (some [("text", PyVal.str "a"), ("url", PyVal.str "b")]) false
      = (replacedState freshOutcomeRequest "0.9"
          (some [("text", PyVal.str "a"), ("url", PyVal.str "b")]) false,
         PostOutcome.invalidResultData) :=
  c10_mutation_before_validation freshOutcomeRequest "0.9"
    [("text", PyVal.str "a"), ("url", PyVal.str "b")] false (by decide)

end LTI
